import Mathlib

/-!
Verification development for the assignment-submission HTTP API.

The repository contains four near-duplicate server variants:
* `src/server.js` and `src/unnamed/part_001`: single-file upload, no payment;
* `src/unnamed/part_000` (and `part_002`): multi-file upload, Paystack payment
  verification, transaction records, and a pseudo-random score.

The durable state consists of token records, submission records and
transaction records kept in MongoDB.  Each route handler is embedded as a
pure function from the incoming request (plus oracles for the external
storage provider, the payment gateway and `Math.random()`) and the current
database state to a result and the updated database state.
-/

/-- A token record (`tokenSchema` in every variant): an opaque string
identifier and a `used` flag that defaults to `false` on creation. -/
structure TokenRec where
  token : String
  used : Bool
deriving DecidableEq

/-- One uploaded file as stored inside a multi-file submission
(`files: [{fileUrl, fileName}]` in `part_000`). -/
structure FileEntry where
  fileUrl : String
  fileName : String
deriving DecidableEq

/-- A submission record of the multi-file variant (`submissionSchema` in
`src/unnamed/part_000`). -/
structure SubmissionRec where
  name : String
  department : String
  course : String
  phone : String
  email : String
  files : List FileEntry
  fileCount : Nat
  amountPaid : Nat
  paymentRef : String
  score : Nat
  token : String
deriving DecidableEq

/-- A transaction record (`transactionSchema` in `src/unnamed/part_000`). -/
structure TransactionRec where
  name : String
  email : String
  amount : Int
  reference : String
  status : String
deriving DecidableEq

/-- The durable state of the multi-file/payment variant
(`src/unnamed/part_000`): the three MongoDB collections. -/
structure DB where
  tokens : List TokenRec
  submissions : List SubmissionRec
  transactions : List TransactionRec
deriving DecidableEq

/-- A submission record of the single-file variant (`submissionSchema` in
`src/server.js`). -/
structure SubmissionRecS where
  name : String
  department : String
  course : String
  phone : String
  email : String
  fileUrl : String
  fileName : String
  token : String
deriving DecidableEq

/-- The durable state of the single-file variant (`src/server.js`). -/
structure DBS where
  tokens : List TokenRec
  submissions : List SubmissionRecS
deriving DecidableEq

/-- `Token.findOne({ token })`: the first record whose `token` field equals
the given string (`findOne` returns one matching document; with the unique
index there is at most one). -/
def findTok (ts : List TokenRec) (s : String) : Option TokenRec :=
  ts.find? (fun t => t.token == s)

/-- Outcome of `POST /api/tokens/validate`. -/
inductive ValidateResult where
  | missingToken
  | invalidToken
  | alreadyUsed
  | valid
deriving DecidableEq

/-- `POST /api/tokens/validate` (src/unnamed/part_000 lines 76–89,
src/server.js lines 59–72): reject a falsy token (absent or empty string)
with "Token is required", then look the record up; "Invalid token" if none
matches, "Token already used" if `used`, otherwise "Token valid". -/
def validateToken (db : DB) (tok : String) : ValidateResult :=
  if tok = "" then .missingToken
  else
    match findTok db.tokens tok with
    | none => .invalidToken
    | some t => if t.used then .alreadyUsed else .valid

/-- `tokenDoc.used = true; await tokenDoc.save()`: the found document
(the first match) has its `used` flag set; the rest of the collection is
untouched. -/
def markUsedFirst : List TokenRec → String → List TokenRec
  | [], _ => []
  | t :: ts, s =>
    if t.token == s then { t with used := true } :: ts
    else t :: markUsedFirst ts s

/-- `Token.create({ token: s })`: fails (duplicate-key error from the
unique index on `token`) when a record with the same string exists,
otherwise appends a fresh record with `used = false`. -/
def createToken (db : DB) (s : String) : Option DB :=
  if db.tokens.any (fun t => t.token == s) then none
  else some { db with tokens := db.tokens ++ [{ token := s, used := false }] }

/-- `Math.random()` is modelled exactly as a 53-bit draw: the returned
double is `k / 2^53` with `k < 2^53`. -/
def two53 : Nat := 2 ^ 53

/-- One base-36 digit rendered the way
`Number.prototype.toString(36)` followed by `.toUpperCase()` renders it:
`0`–`9` then `A`–`Z`. -/
def digit36Char (d : Nat) : Char :=
  if d < 10 then Char.ofNat (48 + d) else Char.ofNat (55 + d)

/-- The fractional base-36 digits of `k / 2^53`, in order, stopping when
the remainder becomes zero (for a 53-bit dyadic this happens within 27
digits, so fuel 30 reproduces the digits `toString(36)` prints). -/
def frac36Digits : Nat → Nat → List Nat
  | 0, _ => []
  | fuel + 1, k =>
    if k = 0 then []
    else (k * 36) / two53 :: frac36Digits fuel ((k * 36) % two53)

/-- `Math.random().toString(36).substr(2, 8).toUpperCase()` for the draw
`k / 2^53`: drop the leading `"0."` and keep at most 8 digits.  (For
`k = 0` the rendered string is `"0"`, so the substring is empty.) -/
def randSuffix (k : Nat) : String :=
  String.mk (((frac36Digits 30 k).take 8).map digit36Char)

/-- The generated token identifier:
``ICT-${Math.random().toString(36).substr(2, 8).toUpperCase()}``. -/
def tokenString (k : Nat) : String :=
  "ICT-" ++ randSuffix k

/-- Characters that can appear in a generated suffix: uppercase base-36
digits. -/
def isDigit36Upper (c : Char) : Prop :=
  ('0' ≤ c ∧ c ≤ '9') ∨ ('A' ≤ c ∧ c ≤ 'Z')

instance (c : Char) : Decidable (isDigit36Upper c) := by
  unfold isDigit36Upper; infer_instance

/-- Outcome of `POST /api/tokens/generate`. -/
inductive GenerateResult where
  | invalidAmount
  | generationFailed
  | ok (toks : List TokenRec)
deriving DecidableEq

/-- The creation loop of `POST /api/tokens/generate`
(src/unnamed/part_000 lines 244–249): sequentially `Token.create` one
token per iteration, drawing the `i`-th random value from the oracle
`rand`.  A duplicate-key failure aborts the loop (the records created
before it remain in the store) and is reported through the boolean flag. -/
def genLoop (rand : Nat → Nat) : Nat → Nat → DB → DB × List TokenRec × Bool
  | _, 0, db => (db, [], false)
  | i, n + 1, db =>
    match createToken db (tokenString (rand i)) with
    | none => (db, [], true)
    | some db' =>
      let r := genLoop rand (i + 1) n db'
      (r.1, { token := tokenString (rand i), used := false } :: r.2.1, r.2.2)

/-- `POST /api/tokens/generate` (src/unnamed/part_000 lines 239–251,
src/server.js lines 156–173): `!amount || amount <= 0` is rejected as
"Invalid amount"; otherwise the loop creates `amount` tokens and the
created records are returned (a duplicate-key throw becomes a 500). -/
def generateTokens (db : DB) (amount : Int) (rand : Nat → Nat) :
    GenerateResult × DB :=
  if amount ≤ 0 then (.invalidAmount, db)
  else
    let r := genLoop rand 0 amount.toNat db
    if r.2.2 then (.generationFailed, r.1) else (.ok r.2.1, r.1)

/-- The gateway's answer for a reference, as read from
`response.data.data` of the Paystack verify call: a status string and an
amount in minor units. -/
structure GatewayData where
  status : String
  amount : Int
deriving DecidableEq

/-- Outcome of `POST /api/payment/verify`.  `serverError` is the catch-all
500 ("Payment verification failed"), raised when the gateway call throws
or `Transaction.create` hits the unique index on `reference`. -/
inductive VerifyResult where
  | serverError
  | notSuccessful
  | amountMismatch
  | verified
deriving DecidableEq

/-- `POST /api/payment/verify` (src/unnamed/part_000 lines 92–125):
a non-"success" gateway status is "Payment not successful"; a gateway
amount different from `expectedAmount * 100` is "Amount mismatch"; on
success a Transaction record is created and `{verified: true}` returned.
The gateway call is an oracle (`none` models an axios throw). -/
def paymentVerify (db : DB) (reference : String) (expectedAmount : Int)
    (name email : String) (gw : Option GatewayData) : VerifyResult × DB :=
  match gw with
  | none => (.serverError, db)
  | some data =>
    if data.status ≠ "success" then (.notSuccessful, db)
    else if data.amount ≠ expectedAmount * 100 then (.amountMismatch, db)
    else if db.transactions.any (fun t => t.reference == reference) then
      (.serverError, db)
    else
      (.verified,
        { db with
            transactions := db.transactions ++
              [{ name := name, email := email, amount := expectedAmount,
                 reference := reference, status := "success" }] })

/-- One file part of a multipart submission request. -/
structure FileReq where
  originalname : String
deriving DecidableEq

/-- The fields of a `POST /api/submissions` request in the multi-file
variant. -/
structure SubmitReq where
  name : String
  department : String
  course : String
  phone : String
  email : String
  token : String
  paymentRef : String
  files : List FileReq
deriving DecidableEq

/-- Outcome of `POST /api/submissions` in the multi-file variant. -/
inductive SubmitResult where
  | noFiles
  | badToken
  | uploadFailed
  | success (score : Nat) (sub : SubmissionRec)
deriving DecidableEq

/-- Whether a submission outcome is the 200 success response. -/
def SubmitResult.isSuccess : SubmitResult → Bool
  | .success _ _ => true
  | _ => false

/-- The upload loop of `part_000` lines 143–172: each file is streamed to
the storage provider (the oracle `up` gives the resulting public URL, or
`none` for an upload error, which throws and aborts the whole batch). -/
def uploadAll (up : Nat → Option String) : Nat → List FileReq →
    Option (List FileEntry)
  | _, [] => some []
  | i, f :: fs =>
    match up i with
    | none => none
    | some url =>
      match uploadAll up (i + 1) fs with
      | none => none
      | some rest => some ({ fileUrl := url, fileName := f.originalname } :: rest)

/-- `scoreOf k` is `Math.floor(Math.random() * 7) + 13` for the draw
`k / 2^53` (part_000 line 176). -/
def scoreOf (k : Nat) : Nat :=
  k * 7 / two53 + 13

/-- The Submission document built at part_000 lines 174–190:
`fileCount` is the length of the uploaded batch, `amountPaid` is
`fileCount * 200`, and the score is stored verbatim. -/
def mkSubmission (req : SubmitReq) (uploadedFiles : List FileEntry)
    (k : Nat) : SubmissionRec :=
  { name := req.name, department := req.department, course := req.course,
    phone := req.phone, email := req.email, files := uploadedFiles,
    fileCount := uploadedFiles.length,
    amountPaid := uploadedFiles.length * 200,
    paymentRef := req.paymentRef, score := scoreOf k, token := req.token }

/-- `POST /api/submissions` of the multi-file variant
(src/unnamed/part_000 lines 128–200): reject an empty batch, then an
unknown or used token; upload every file (a storage error is a 500 and
leaves the store untouched); then create the Submission record, mark the
token used, and answer with the score.  `k` is the `Math.random()` draw
for the score. -/
def submitMulti (db : DB) (req : SubmitReq) (up : Nat → Option String)
    (k : Nat) : SubmitResult × DB :=
  if req.files.length = 0 then (.noFiles, db)
  else
    match findTok db.tokens req.token with
    | none => (.badToken, db)
    | some tokenDoc =>
      if tokenDoc.used then (.badToken, db)
      else
        match uploadAll up 0 req.files with
        | none => (.uploadFailed, db)
        | some uploadedFiles =>
          (.success (scoreOf k) (mkSubmission req uploadedFiles k),
            { db with
                submissions := db.submissions ++ [mkSubmission req uploadedFiles k],
                tokens := markUsedFirst db.tokens req.token })

/-- The fields of a `POST /api/submissions` request in the single-file
variant (`upload.single("file")`: at most one file, `none` when absent). -/
structure SingleReq where
  name : String
  department : String
  course : String
  phone : String
  email : String
  token : String
  file : Option FileReq
deriving DecidableEq

/-- Outcome of `POST /api/submissions` in the single-file variant. -/
inductive SingleResult where
  | fileRequired
  | badToken
  | uploadFailed
  | ok
deriving DecidableEq

/-- Replace the first occurrence of `pat` in a character list
(JavaScript's `String.prototype.replace` with a string pattern). -/
def replFirst : List Char → List Char → List Char → List Char
  | [], _, _ => []
  | c :: rest, pat, rep =>
    if pat.isPrefixOf (c :: rest) then rep ++ (c :: rest).drop pat.length
    else c :: replFirst rest pat rep

/-- server.js line 105: insert `fl_attachment` after the first
`"/upload/"` of the secure URL. -/
def flAttachment (url : String) : String :=
  String.mk (replFirst url.toList "/upload/".toList
    "/upload/fl_attachment/".toList)

/-- `POST /api/submissions` of the single-file variant (src/server.js
lines 75–129): reject a missing file, then an unknown or used token;
upload the one file to the storage provider (oracle `up`; `none` is an
upload error, a 500 that leaves the store untouched); then create the
Submission record and mark the token used. -/
def submitSingle (db : DBS) (req : SingleReq) (up : Option String) :
    SingleResult × DBS :=
  match req.file with
  | none => (.fileRequired, db)
  | some f =>
    match findTok db.tokens req.token with
    | none => (.badToken, db)
    | some tokenDoc =>
      if tokenDoc.used then (.badToken, db)
      else
        match up with
        | none => (.uploadFailed, db)
        | some secureUrl =>
          (.ok,
            { db with
                submissions := db.submissions ++
                  [{ name := req.name, department := req.department,
                     course := req.course, phone := req.phone,
                     email := req.email, fileUrl := flAttachment secureUrl,
                     fileName := f.originalname, token := req.token }],
                tokens := markUsedFirst db.tokens req.token })

/-- One API call against the multi-file/payment variant, together with
the oracles (gateway answer, storage results, random draw) consumed by
that call. -/
inductive Op where
  | validate (tok : String)
  | verifyPayment (reference : String) (expectedAmount : Int)
      (name email : String) (gw : Option GatewayData)
  | submit (req : SubmitReq) (up : Nat → Option String) (k : Nat)
  | generate (amount : Int) (rand : Nat → Nat)

/-- The state reached after one API call. -/
def applyOp (db : DB) : Op → DB
  | .validate _ => db
  | .verifyPayment r a n e gw => (paymentVerify db r a n e gw).2
  | .submit req up k => (submitMulti db req up k).2
  | .generate a rand => (generateTokens db a rand).2

/-- The state reached after a sequence of API calls. -/
def applyOps (db : DB) : List Op → DB
  | [] => db
  | op :: ops => applyOps (applyOp db op) ops

/-- Per-index evolution of the token collection: every existing record
keeps its position and its identifier, and its `used` flag can only go
from `false` to `true`. -/
def TokensMono (a b : List TokenRec) : Prop :=
  ∀ i ta, a.get? i = some ta →
    ∃ tb, b.get? i = some tb ∧ tb.token = ta.token ∧
      (ta.used = true → tb.used = true)

/-- An unknown or already-used token, as tested by
`if (!tokenDoc || tokenDoc.used)`. -/
def BadTok (ts : List TokenRec) (s : String) : Prop :=
  findTok ts s = none ∨ ∃ t, findTok ts s = some t ∧ t.used = true

/- ---------- concrete fixtures used by witnesses and counterexamples -/

/-- The empty store. -/
def dbEmpty : DB := { tokens := [], submissions := [], transactions := [] }

/-- An unused token record. -/
def tok1 : TokenRec := { token := "ICT-AB12CD34", used := false }

/-- The same token record, consumed. -/
def tok1u : TokenRec := { token := "ICT-AB12CD34", used := true }

/-- A store holding one unused token. -/
def dbOne : DB := { tokens := [tok1], submissions := [], transactions := [] }

/-- A store holding one used token. -/
def dbOneUsed : DB :=
  { tokens := [tok1u], submissions := [], transactions := [] }

/-- A one-file upload. -/
def fileA : FileReq := { originalname := "a.pdf" }

/-- A submission request without files. -/
def reqNoFiles : SubmitReq :=
  { name := "N", department := "D", course := "C", phone := "P",
    email := "E", token := "ICT-AB12CD34", paymentRef := "ref1",
    files := [] }

/-- A submission request with one file. -/
def reqOneFile : SubmitReq := { reqNoFiles with files := [fileA] }

/-- A storage oracle on which every upload fails. -/
def upNone : Nat → Option String := fun _ => none

/-- A storage oracle on which every upload yields the same URL. -/
def upSome : Nat → Option String := fun _ => some "https://x/y"

/-- Single-file-variant store with one unused token. -/
def dbsOne : DBS := { tokens := [tok1], submissions := [] }

/-- Single-file-variant request with no file part. -/
def reqSingleNoFile : SingleReq :=
  { name := "N", department := "D", course := "C", phone := "P",
    email := "E", token := "ICT-AB12CD34", file := none }

/-- A successful gateway answer for 200 major units. -/
def gwGood : GatewayData := { status := "success", amount := 20000 }

/-- The file entry produced by `upSome` for `fileA`. -/
def feA : FileEntry := { fileUrl := "https://x/y", fileName := "a.pdf" }

/-- The submission record created from `reqOneFile` under `upSome` with
random draw 0. -/
def subA : SubmissionRec :=
  { name := "N", department := "D", course := "C", phone := "P",
    email := "E", files := [feA], fileCount := 1, amountPaid := 200,
    paymentRef := "ref1", score := 13, token := "ICT-AB12CD34" }

/-- The store after submitting `reqOneFile` against `dbOne`. -/
def dbOneDone : DB :=
  { tokens := [tok1u], submissions := [subA], transactions := [] }

/-- The first match found for `s` is consumed (`used = true`). -/
def FirstUsed (ts : List TokenRec) (s : String) : Prop :=
  ∃ t, findTok ts s = some t ∧ t.used = true

/-- The token record created for draw index `j` of a generation run whose
first draw has index `i`. -/
def freshTok (rand : Nat → Nat) (i j : Nat) : TokenRec :=
  { token := tokenString (rand (i + j)), used := false }

/- ---------- helper lemmas ---------- -/

theorem findTok_some_token {ts : List TokenRec} {s : String} {t : TokenRec}
    (h : findTok ts s = some t) : t.token = s := by
  have := List.find?_some h
  simpa using this

theorem findTok_some_mem {ts : List TokenRec} {s : String} {t : TokenRec}
    (h : findTok ts s = some t) : t ∈ ts :=
  List.mem_of_find?_eq_some h

theorem findTok_eq_none {ts : List TokenRec} {s : String} :
    findTok ts s = none ↔ ∀ t ∈ ts, t.token ≠ s := by
  unfold findTok
  rw [List.find?_eq_none]
  constructor
  · intro h t ht
    have := h t ht
    simpa using this
  · intro h t ht
    simpa using h t ht

theorem findTok_append_left {a : List TokenRec} {s : String} {t : TokenRec}
    (h : findTok a s = some t) (l : List TokenRec) :
    findTok (a ++ l) s = some t := by
  induction a with
  | nil => simp [findTok] at h
  | cons x xs ih =>
    unfold findTok at h ⊢
    cases hx : (x.token == s) with
    | true => simp [List.find?_cons, hx] at h ⊢; exact h
    | false =>
      simp only [List.cons_append, List.find?_cons, hx] at h ⊢
      exact ih h

theorem markUsedFirst_self {ts : List TokenRec} {s : String} {t : TokenRec}
    (h : findTok ts s = some t) :
    findTok (markUsedFirst ts s) s = some { t with used := true } := by
  induction ts with
  | nil => simp [findTok] at h
  | cons x xs ih =>
    unfold findTok at h ⊢
    cases hx : (x.token == s) with
    | true =>
      have hxt : x = t := by simpa [List.find?_cons, hx] using h
      subst hxt
      simp [markUsedFirst, hx, List.find?_cons]
    | false =>
      have h' : List.find? (fun u => u.token == s) xs = some t := by
        simpa [List.find?_cons, hx] using h
      simp only [markUsedFirst, hx, Bool.false_eq_true, if_false,
        List.find?_cons]
      exact ih h'

theorem firstUsed_markUsedFirst {ts : List TokenRec} {s s' : String}
    (h : FirstUsed ts s) : FirstUsed (markUsedFirst ts s') s := by
  induction ts with
  | nil =>
    obtain ⟨t, ht, _⟩ := h
    simp [findTok] at ht
  | cons x xs ih =>
    obtain ⟨t, hfind, hused⟩ := h
    unfold findTok at hfind
    cases hx' : (x.token == s') with
    | true =>
      cases hx : (x.token == s) with
      | true =>
        have hxt : x = t := by simpa [List.find?_cons, hx] using hfind
        subst hxt
        refine ⟨{ x with used := true }, ?_, rfl⟩
        unfold findTok
        simp [markUsedFirst, hx', List.find?_cons, hx]
      | false =>
        have h' : List.find? (fun u => u.token == s) xs = some t := by
          simpa [List.find?_cons, hx] using hfind
        refine ⟨t, ?_, hused⟩
        unfold findTok
        simp [markUsedFirst, hx', List.find?_cons, hx, h']
    | false =>
      cases hx : (x.token == s) with
      | true =>
        have hxt : x = t := by simpa [List.find?_cons, hx] using hfind
        subst hxt
        refine ⟨x, ?_, hused⟩
        unfold findTok
        simp [markUsedFirst, hx', List.find?_cons, hx]
      | false =>
        have h' : List.find? (fun u => u.token == s) xs = some t := by
          simpa [List.find?_cons, hx] using hfind
        obtain ⟨t', ht', hu'⟩ := ih ⟨t, h', hused⟩
        refine ⟨t', ?_, hu'⟩
        unfold findTok at ht' ⊢
        simp [markUsedFirst, hx', List.find?_cons, hx, ht']

theorem firstUsed_append {a : List TokenRec} {s : String}
    (h : FirstUsed a s) (l : List TokenRec) : FirstUsed (a ++ l) s := by
  obtain ⟨t, ht, hu⟩ := h
  exact ⟨t, findTok_append_left ht l, hu⟩

theorem get?_append_here {α : Type} {a l : List α} {i : Nat} {x : α}
    (h : a.get? i = some x) : (a ++ l).get? i = some x := by
  induction a generalizing i with
  | nil => simp at h
  | cons y ys ih =>
    cases i with
    | zero => simpa using h
    | succ j =>
      simp only [List.get?_cons_succ] at h
      simpa using ih h

theorem tokensMono_refl (a : List TokenRec) : TokensMono a a :=
  fun _ ta h => ⟨ta, h, rfl, fun hu => hu⟩

theorem tokensMono_trans {a b c : List TokenRec}
    (h1 : TokensMono a b) (h2 : TokensMono b c) : TokensMono a c := by
  intro i ta ha
  obtain ⟨tb, hb, htok, hu⟩ := h1 i ta ha
  obtain ⟨tc, hc, htok', hu'⟩ := h2 i tb hb
  exact ⟨tc, hc, htok'.trans htok, fun h => hu' (hu h)⟩

theorem tokensMono_append (a l : List TokenRec) : TokensMono a (a ++ l) :=
  fun _ ta h => ⟨ta, get?_append_here h, rfl, fun hu => hu⟩

theorem tokensMono_markUsedFirst (ts : List TokenRec) (s : String) :
    TokensMono ts (markUsedFirst ts s) := by
  induction ts with
  | nil => intro i ta h; simp at h
  | cons x xs ih =>
    intro i ta h
    cases hx : (x.token == s) with
    | true =>
      have hm : markUsedFirst (x :: xs) s = { x with used := true } :: xs := by
        simp [markUsedFirst, hx]
      cases i with
      | zero =>
        simp only [List.get?_cons_zero] at h
        injection h with h
        subst h
        rw [hm]
        exact ⟨{ x with used := true }, rfl, rfl, fun _ => rfl⟩
      | succ j =>
        simp only [List.get?_cons_succ] at h
        rw [hm]
        exact ⟨ta, by simpa only [List.get?_cons_succ] using h, rfl,
          fun hu => hu⟩
    | false =>
      have hm : markUsedFirst (x :: xs) s = x :: markUsedFirst xs s := by
        simp [markUsedFirst, hx]
      cases i with
      | zero =>
        simp only [List.get?_cons_zero] at h
        injection h with h
        subst h
        rw [hm]
        exact ⟨x, rfl, rfl, fun hu => hu⟩
      | succ j =>
        simp only [List.get?_cons_succ] at h
        obtain ⟨tb, hb, htok, hu⟩ := ih j ta h
        rw [hm]
        exact ⟨tb, by simpa only [List.get?_cons_succ] using hb, htok, hu⟩

theorem paymentVerify_tokens (db : DB) (r : String) (a : Int)
    (n e : String) (gw : Option GatewayData) :
    (paymentVerify db r a n e gw).2.tokens = db.tokens := by
  unfold paymentVerify
  cases gw with
  | none => rfl
  | some d =>
    dsimp only
    split
    · rfl
    · split
      · rfl
      · split
        · rfl
        · rfl

theorem paymentVerify_submissions (db : DB) (r : String) (a : Int)
    (n e : String) (gw : Option GatewayData) :
    (paymentVerify db r a n e gw).2.submissions = db.submissions := by
  unfold paymentVerify
  cases gw with
  | none => rfl
  | some d =>
    dsimp only
    split
    · rfl
    · split
      · rfl
      · split
        · rfl
        · rfl

theorem submitMulti_tokens (db : DB) (req : SubmitReq)
    (up : Nat → Option String) (k : Nat) :
    (submitMulti db req up k).2.tokens = db.tokens ∨
      (submitMulti db req up k).2.tokens = markUsedFirst db.tokens req.token := by
  unfold submitMulti
  split
  · exact Or.inl rfl
  · split
    · exact Or.inl rfl
    · split
      · exact Or.inl rfl
      · split
        · exact Or.inl rfl
        · exact Or.inr rfl

theorem genLoop_tokens (rand : Nat → Nat) :
    ∀ (n i : Nat) (db : DB),
      ∃ L, (genLoop rand i n db).1.tokens = db.tokens ++ L := by
  intro n
  induction n with
  | zero => intro i db; exact ⟨[], by simp [genLoop]⟩
  | succ m ih =>
    intro i db
    cases hc : createToken db (tokenString (rand i)) with
    | none =>
      refine ⟨[], ?_⟩
      unfold genLoop
      rw [hc]
      simp
    | some db' =>
      obtain ⟨L, hL⟩ := ih (i + 1) db'
      have hdb' : db'.tokens = db.tokens ++
          [{ token := tokenString (rand i), used := false }] := by
        unfold createToken at hc
        split at hc
        · cases hc
        · cases hc; rfl
      refine ⟨{ token := tokenString (rand i), used := false } :: L, ?_⟩
      unfold genLoop
      rw [hc]
      dsimp only
      rw [hL, hdb']
      simp

theorem generateTokens_tokens (db : DB) (a : Int) (rand : Nat → Nat) :
    ∃ L, (generateTokens db a rand).2.tokens = db.tokens ++ L := by
  unfold generateTokens
  split
  · exact ⟨[], by simp⟩
  · obtain ⟨L, hL⟩ := genLoop_tokens rand a.toNat 0 db
    dsimp only
    split
    · exact ⟨L, hL⟩
    · exact ⟨L, hL⟩

theorem tokensMono_applyOp (db : DB) (op : Op) :
    TokensMono db.tokens (applyOp db op).tokens := by
  cases op with
  | validate tok => exact tokensMono_refl _
  | verifyPayment r a n e gw =>
    show TokensMono db.tokens (paymentVerify db r a n e gw).2.tokens
    rw [paymentVerify_tokens]
    exact tokensMono_refl _
  | submit req up k =>
    show TokensMono db.tokens (submitMulti db req up k).2.tokens
    rcases submitMulti_tokens db req up k with h | h
    · rw [h]; exact tokensMono_refl _
    · rw [h]; exact tokensMono_markUsedFirst _ _
  | generate a rand =>
    show TokensMono db.tokens (generateTokens db a rand).2.tokens
    obtain ⟨L, hL⟩ := generateTokens_tokens db a rand
    rw [hL]
    exact tokensMono_append _ _

theorem tokensMono_applyOps (db : DB) (ops : List Op) :
    TokensMono db.tokens (applyOps db ops).tokens := by
  induction ops generalizing db with
  | nil => exact tokensMono_refl _
  | cons op ops ih =>
    exact tokensMono_trans (tokensMono_applyOp db op) (ih (applyOp db op))

theorem firstUsed_applyOp {db : DB} {s : String} (h : FirstUsed db.tokens s)
    (op : Op) : FirstUsed (applyOp db op).tokens s := by
  cases op with
  | validate tok => exact h
  | verifyPayment r a n e gw =>
    show FirstUsed (paymentVerify db r a n e gw).2.tokens s
    rw [paymentVerify_tokens]
    exact h
  | submit req up k =>
    show FirstUsed (submitMulti db req up k).2.tokens s
    rcases submitMulti_tokens db req up k with heq | heq
    · rw [heq]; exact h
    · rw [heq]; exact firstUsed_markUsedFirst h
  | generate a rand =>
    show FirstUsed (generateTokens db a rand).2.tokens s
    obtain ⟨L, hL⟩ := generateTokens_tokens db a rand
    rw [hL]
    exact firstUsed_append h L

theorem firstUsed_applyOps {db : DB} {s : String} (h : FirstUsed db.tokens s)
    (ops : List Op) : FirstUsed (applyOps db ops).tokens s := by
  induction ops generalizing db with
  | nil => exact h
  | cons op ops ih => exact ih (firstUsed_applyOp h op)

theorem two53_pos : 0 < two53 := by norm_num [two53]

theorem submitMulti_fail_frame {db : DB} {req : SubmitReq}
    {up : Nat → Option String} {k : Nat} {res : SubmitResult} {db' : DB}
    (h : submitMulti db req up k = (res, db'))
    (hres : res.isSuccess = false) : db' = db := by
  unfold submitMulti at h
  split at h
  · injection h with h1 h2; exact h2.symm
  · split at h
    · injection h with h1 h2; exact h2.symm
    · split at h
      · injection h with h1 h2; exact h2.symm
      · split at h
        · injection h with h1 h2; exact h2.symm
        · injection h with h1 h2
          subst h1
          simp [SubmitResult.isSuccess] at hres

theorem submitMulti_success_inv {db : DB} {req : SubmitReq}
    {up : Nat → Option String} {k : Nat} {sc : Nat} {sub : SubmissionRec}
    {db' : DB} (h : submitMulti db req up k = (.success sc sub, db')) :
    req.files.length ≠ 0 ∧
    ∃ t ufs, findTok db.tokens req.token = some t ∧ t.used = false ∧
      uploadAll up 0 req.files = some ufs ∧
      sub = mkSubmission req ufs k ∧ sc = scoreOf k ∧
      db' = { db with
                submissions := db.submissions ++ [sub],
                tokens := markUsedFirst db.tokens req.token } := by
  unfold submitMulti at h
  split at h
  · simp at h
  next hne =>
    split at h
    · simp at h
    next t hfind =>
      split at h
      · simp at h
      next hused =>
        split at h
        · simp at h
        next ufs hupl =>
          injection h with h1 h2
          injection h1 with hsc hsub
          subst hsc
          subst hsub
          exact ⟨hne, t, ufs, hfind, by simpa using hused, hupl, rfl, rfl,
            h2.symm⟩

theorem submitSingle_fail_frame {db : DBS} {req : SingleReq}
    {up : Option String} {res : SingleResult} {db' : DBS}
    (h : submitSingle db req up = (res, db'))
    (hres : res ≠ .ok) : db' = db := by
  unfold submitSingle at h
  split at h
  · injection h with h1 h2; exact h2.symm
  · split at h
    · injection h with h1 h2; exact h2.symm
    · split at h
      · injection h with h1 h2; exact h2.symm
      · split at h
        · injection h with h1 h2; exact h2.symm
        · injection h with h1 h2
          exact absurd h1.symm hres

theorem submitSingle_success_inv {db : DBS} {req : SingleReq}
    {up : Option String} {db' : DBS}
    (h : submitSingle db req up = (.ok, db')) :
    ∃ f t url, req.file = some f ∧ findTok db.tokens req.token = some t ∧
      t.used = false ∧ up = some url ∧
      db' = { db with
        submissions := db.submissions ++
          [{ name := req.name, department := req.department,
             course := req.course, phone := req.phone, email := req.email,
             fileUrl := flAttachment url, fileName := f.originalname,
             token := req.token }],
        tokens := markUsedFirst db.tokens req.token } := by
  unfold submitSingle at h
  split at h
  · simp at h
  next f hfile =>
    split at h
    · simp at h
    next t hfind =>
      split at h
      · simp at h
      next hused =>
        split at h
        · simp at h
        next a url =>
          injection h with h1 h2
          exact ⟨f, t, url, hfile, hfind, by simpa using hused, rfl, h2.symm⟩

theorem uploadAll_length {up : Nat → Option String} :
    ∀ (fs : List FileReq) (i : Nat) (l : List FileEntry),
      uploadAll up i fs = some l → l.length = fs.length := by
  intro fs
  induction fs with
  | nil =>
    intro i l h
    unfold uploadAll at h
    injection h with h
    subst h
    rfl
  | cons f fs ih =>
    intro i l h
    unfold uploadAll at h
    cases hu : up i with
    | none => rw [hu] at h; simp at h
    | some url =>
      rw [hu] at h
      cases hrec : uploadAll up (i + 1) fs with
      | none => rw [hrec] at h; simp at h
      | some rest =>
        rw [hrec] at h
        injection h with h
        subst h
        simp [ih (i + 1) rest hrec]

theorem frac36Digits_lt : ∀ (fuel k : Nat), k < two53 →
    ∀ d ∈ frac36Digits fuel k, d < 36 := by
  intro fuel
  induction fuel with
  | zero => intro k _ d hd; simp [frac36Digits] at hd
  | succ m ih =>
    intro k hk d hd
    rw [frac36Digits] at hd
    split at hd
    · simp at hd
    · simp only [List.mem_cons] at hd
      rcases hd with rfl | hd
      · refine (Nat.div_lt_iff_lt_mul two53_pos).mpr ?_
        have h36 : k * 36 < two53 * 36 := by
          exact Nat.mul_lt_mul_of_lt_of_le hk (le_refl 36) (by norm_num)
        calc k * 36 < two53 * 36 := h36
        _ = 36 * two53 := by ring
      · exact ih _ (Nat.mod_lt _ two53_pos) d hd

theorem digit36Char_base36 : ∀ d, d < 36 → isDigit36Upper (digit36Char d) := by
  decide

theorem randSuffix_length (k : Nat) : (randSuffix k).length ≤ 8 := by
  have heq : (randSuffix k).length =
      (((frac36Digits 30 k).take 8).map digit36Char).length := rfl
  rw [heq, List.length_map, List.length_take]
  exact min_le_left _ _

theorem randSuffix_chars {k : Nat} (hk : k < two53) :
    ∀ c ∈ (randSuffix k).toList, isDigit36Upper c := by
  intro c hc
  have hc' : c ∈ ((frac36Digits 30 k).take 8).map digit36Char := hc
  obtain ⟨d, hd, rfl⟩ := List.mem_map.mp hc'
  have hd' : d ∈ frac36Digits 30 k := List.take_subset 8 _ hd
  exact digit36Char_base36 d (frac36Digits_lt 30 k hk d hd')

theorem genLoop_ok (rand : Nat → Nat) :
    ∀ (n i : Nat) (db : DB),
      (∀ j, j < n → ∀ t ∈ db.tokens, t.token ≠ tokenString (rand (i + j))) →
      (∀ j, j < n → ∀ j', j' < n → j ≠ j' →
        tokenString (rand (i + j)) ≠ tokenString (rand (i + j'))) →
      genLoop rand i n db =
        ({ db with tokens := db.tokens ++ (List.range n).map (freshTok rand i) },
         (List.range n).map (freshTok rand i), false) := by
  intro n
  induction n with
  | zero =>
    intro i db _ _
    simp [genLoop]
  | succ m ih =>
    intro i db hfresh hdist
    have hnone : db.tokens.any (fun t => t.token == tokenString (rand i)) = false := by
      rw [List.any_eq_false]
      intro t ht
      have h0 := hfresh 0 (Nat.succ_pos m) t ht
      simpa using h0
    have hc : createToken db (tokenString (rand i)) =
        some { db with tokens := db.tokens ++ [freshTok rand i 0] } := by
      unfold createToken
      rw [hnone]
      simp [freshTok]
    have hfresh1 : ∀ j, j < m →
        ∀ t ∈ db.tokens ++ [freshTok rand i 0],
        t.token ≠ tokenString (rand (i + 1 + j)) := by
      intro j hj t ht
      simp only [List.mem_append, List.mem_singleton] at ht
      rcases ht with ht | rfl
      · have h1 := hfresh (j + 1) (by omega) t ht
        have e : i + (j + 1) = i + 1 + j := by omega
        rwa [e] at h1
      · have h0 := hdist 0 (by omega) (j + 1) (by omega) (by omega)
        simp only [Nat.add_zero] at h0
        have e : i + (j + 1) = i + 1 + j := by omega
        rw [e] at h0
        simpa [freshTok] using h0
    have hdist1 : ∀ j, j < m → ∀ j', j' < m → j ≠ j' →
        tokenString (rand (i + 1 + j)) ≠ tokenString (rand (i + 1 + j')) := by
      intro j hj j' hj' hne
      have h1 := hdist (j + 1) (by omega) (j' + 1) (by omega) (by omega)
      have e1 : i + (j + 1) = i + 1 + j := by omega
      have e2 : i + (j' + 1) = i + 1 + j' := by omega
      rwa [e1, e2] at h1
    have hrec := ih (i + 1)
      { db with tokens := db.tokens ++ [freshTok rand i 0] } hfresh1 hdist1
    unfold genLoop
    rw [hc]
    dsimp only
    rw [hrec]
    have hmap : (List.range (m + 1)).map (freshTok rand i) =
        freshTok rand i 0 :: (List.range m).map (freshTok rand (i + 1)) := by
      rw [List.range_succ_eq_map, List.map_cons, List.map_map]
      refine congrArg₂ _ rfl ?_
      refine List.map_congr_left ?_
      intro j _
      have e : i + (j + 1) = i + 1 + j := by omega
      simp [Function.comp, freshTok, e]
    rw [hmap]
    simp [freshTok]

theorem submitSingle_tokens (db : DBS) (req : SingleReq) (up : Option String) :
    (submitSingle db req up).2.tokens = db.tokens ∨
      (submitSingle db req up).2.tokens = markUsedFirst db.tokens req.token := by
  unfold submitSingle
  split
  · exact Or.inl rfl
  · split
    · exact Or.inl rfl
    · split
      · exact Or.inl rfl
      · split
        · exact Or.inl rfl
        · exact Or.inr rfl

/- ---------- claim theorems ---------- -/

/-- Claim C1: every submission request that fails before the Submission
record is created — missing files, unknown token, already-used token, or
a storage upload error — leaves the whole store unchanged, so no
Submission record exists and the presented token's `used` flag stays as
it was (in particular `false`); the token is marked used exactly in the
success case, after upload and record creation succeeded.  Both the
multi-file variant (part_000) and the single-file variant (server.js)
are covered. -/
theorem submission_rollback :
    (∀ (db : DB) (req : SubmitReq) (up : Nat → Option String) (k : Nat)
        (res : SubmitResult) (db' : DB),
      submitMulti db req up k = (res, db') → res.isSuccess = false →
        db' = db) ∧
    (∀ (db : DB) (req : SubmitReq) (up : Nat → Option String) (k : Nat)
        (sc : Nat) (sub : SubmissionRec) (db' : DB),
      submitMulti db req up k = (.success sc sub, db') →
        db'.submissions = db.submissions ++ [sub] ∧
        db'.tokens = markUsedFirst db.tokens req.token) ∧
    (∀ (db : DBS) (req : SingleReq) (up : Option String)
        (res : SingleResult) (db' : DBS),
      submitSingle db req up = (res, db') → res ≠ .ok → db' = db) ∧
    (∀ (db : DBS) (req : SingleReq) (up : Option String) (db' : DBS),
      submitSingle db req up = (.ok, db') →
        db'.tokens = markUsedFirst db.tokens req.token ∧
        ∃ sub, db'.submissions = db.submissions ++ [sub]) := by
  refine ⟨?_, ?_, ?_, ?_⟩
  · intro db req up k res db' h hres
    exact submitMulti_fail_frame h hres
  · intro db req up k sc sub db' h
    obtain ⟨-, t, ufs, -, -, -, -, -, hdb'⟩ := submitMulti_success_inv h
    subst hdb'
    exact ⟨rfl, rfl⟩
  · intro db req up res db' h hres
    exact submitSingle_fail_frame h hres
  · intro db req up db' h
    obtain ⟨f, t, url, -, -, -, -, hdb'⟩ := submitSingle_success_inv h
    subst hdb'
    exact ⟨rfl, ⟨_, rfl⟩⟩

/-- Witness for `submission_rollback`: the concrete zero-file request
against the one-token store fails and leaves the store unchanged. -/
theorem submission_rollback_witness :
    (submitMulti dbOne reqNoFiles upNone 0).2 = dbOne :=
  submission_rollback.1 dbOne reqNoFiles upNone 0
    SubmitResult.noFiles (submitMulti dbOne reqNoFiles upNone 0).2
    (by decide) (by decide)

/-- Claim C2, counterexample: for the token string `""` no record matches
(here: the empty store), yet validation answers "Token is required"
(`missingToken`), not the claimed NotFound answer "Invalid token",
because the handler's falsy check fires before the lookup. -/
theorem validate_empty_token_counterexample :
    findTok dbEmpty.tokens "" = none ∧
    validateToken dbEmpty "" = .missingToken ∧
    validateToken dbEmpty "" ≠ .invalidToken := by
  decide

/-- Claim C2 (amended): for every NONEMPTY token string, and a token store
whose identifiers are unique (the creation-time invariant), validation
succeeds with "Token valid" iff a record with that string exists and its
`used` flag is `false`; it fails with "Invalid token" iff no record
matches, and with "Token already used" iff the matching record has
`used = true`.  (The empty token string is instead rejected as
"Token is required" before any lookup.) -/
theorem validate_token_iff (db : DB) (tok : String) (htok : tok ≠ "")
    (huniq : (db.tokens.map (fun t => t.token)).Nodup) :
    (validateToken db tok = .valid ↔
      ∃ t ∈ db.tokens, t.token = tok ∧ t.used = false) ∧
    (validateToken db tok = .invalidToken ↔ ∀ t ∈ db.tokens, t.token ≠ tok) ∧
    (validateToken db tok = .alreadyUsed ↔
      ∃ t ∈ db.tokens, t.token = tok ∧ t.used = true) := by
  have hinj := List.inj_on_of_nodup_map huniq
  cases hf : findTok db.tokens tok with
  | none =>
    have hval : validateToken db tok = .invalidToken := by
      unfold validateToken
      rw [if_neg htok, hf]
    have hnone := findTok_eq_none.mp hf
    rw [hval]
    refine ⟨⟨fun h => absurd h (by decide), ?_⟩,
      ⟨fun _ => hnone, fun _ => rfl⟩,
      ⟨fun h => absurd h (by decide), ?_⟩⟩
    · rintro ⟨t, ht, htk, -⟩
      exact absurd htk (hnone t ht)
    · rintro ⟨t, ht, htk, -⟩
      exact absurd htk (hnone t ht)
  | some t =>
    have htmem := findTok_some_mem hf
    have httok : t.token = tok := findTok_some_token hf
    cases hu : t.used with
    | true =>
      have hval : validateToken db tok = .alreadyUsed := by
        unfold validateToken
        rw [if_neg htok, hf]
        simp [hu]
      rw [hval]
      refine ⟨⟨fun h => absurd h (by decide), ?_⟩,
        ⟨fun h => absurd h (by decide),
          fun hall => absurd httok (hall t htmem)⟩,
        ⟨fun _ => ⟨t, htmem, httok, hu⟩, fun _ => rfl⟩⟩
      · rintro ⟨t', ht', htk', hu'⟩
        have he : t' = t := hinj ht' htmem (htk'.trans httok.symm)
        subst he
        rw [hu] at hu'
        cases hu'
    | false =>
      have hval : validateToken db tok = .valid := by
        unfold validateToken
        rw [if_neg htok, hf]
        simp [hu]
      rw [hval]
      refine ⟨⟨fun _ => ⟨t, htmem, httok, hu⟩, fun _ => rfl⟩,
        ⟨fun h => absurd h (by decide),
          fun hall => absurd httok (hall t htmem)⟩,
        ⟨fun h => absurd h (by decide), ?_⟩⟩
      · rintro ⟨t', ht', htk', hu'⟩
        have he : t' = t := hinj ht' htmem (htk'.trans httok.symm)
        subst he
        rw [hu] at hu'
        cases hu'

/-- Witness for `validate_token_iff`: the stored unused token validates
as "Token valid". -/
theorem validate_token_iff_witness :
    validateToken dbOne "ICT-AB12CD34" = .valid :=
  (validate_token_iff dbOne "ICT-AB12CD34" (by decide) (by decide)).1.mpr
    ⟨tok1, by decide, by decide, by decide⟩

/-- Claim C3: after every successful submission (in a store whose token
identifiers are nonempty strings, as every generated one is) the consumed
token's `used` flag is `true`, and validating that same token afterwards
— even after any further sequence of API calls — fails with
"Token already used". -/
theorem submitted_token_stays_used
    (db : DB) (req : SubmitReq) (up : Nat → Option String) (k : Nat)
    (sc : Nat) (sub : SubmissionRec) (db' : DB)
    (hwf : ∀ t ∈ db.tokens, t.token ≠ "")
    (h : submitMulti db req up k = (.success sc sub, db')) (ops : List Op) :
    (∃ t', findTok db'.tokens req.token = some t' ∧ t'.used = true) ∧
    validateToken (applyOps db' ops) req.token = .alreadyUsed := by
  obtain ⟨-, t, ufs, hfind, hused, -, -, -, hdb'⟩ := submitMulti_success_inv h
  have htok_ne : req.token ≠ "" := by
    have hh := hwf t (findTok_some_mem hfind)
    rw [findTok_some_token hfind] at hh
    exact hh
  have hmark : findTok db'.tokens req.token = some { t with used := true } := by
    subst hdb'
    exact markUsedFirst_self hfind
  obtain ⟨t2, hfind2, hused2⟩ :=
    firstUsed_applyOps (⟨_, hmark, rfl⟩ : FirstUsed db'.tokens req.token) ops
  refine ⟨⟨_, hmark, rfl⟩, ?_⟩
  unfold validateToken
  rw [if_neg htok_ne, hfind2]
  simp [hused2]

/-- Witness for `submitted_token_stays_used`: after the concrete
successful one-file submission, re-validating the consumed token answers
"Token already used". -/
theorem submitted_token_stays_used_witness :
    validateToken (applyOps dbOneDone []) "ICT-AB12CD34" = .alreadyUsed :=
  (submitted_token_stays_used dbOne reqOneFile upSome 0 13 subA dbOneDone
    (by decide) (by decide) []).2

/-- Claim C4: the `used` flag never reverts.  Under any sequence of API
calls of the multi-file/payment variant, an existing token record keeps
its position and identifier and, once `used = true`, stays used; the
single-file variant's submission handler — the only state-changing
operation of that variant besides generation, which only appends —
preserves it likewise. -/
theorem token_used_never_reverts :
    (∀ (db : DB) (ops : List Op) (i : Nat) (t : TokenRec),
      db.tokens.get? i = some t → t.used = true →
      ∃ t', (applyOps db ops).tokens.get? i = some t' ∧
        t'.token = t.token ∧ t'.used = true) ∧
    (∀ (db : DBS) (req : SingleReq) (up : Option String) (i : Nat)
        (t : TokenRec),
      db.tokens.get? i = some t → t.used = true →
      ∃ t', (submitSingle db req up).2.tokens.get? i = some t' ∧
        t'.token = t.token ∧ t'.used = true) := by
  constructor
  · intro db ops i t hget hused
    obtain ⟨t', hget', htok, hu⟩ := tokensMono_applyOps db ops i t hget
    exact ⟨t', hget', htok, hu hused⟩
  · intro db req up i t hget hused
    rcases submitSingle_tokens db req up with heq | heq
    · rw [heq]
      exact ⟨t, hget, rfl, hused⟩
    · rw [heq]
      obtain ⟨t', hget', htok, hu⟩ :=
        tokensMono_markUsedFirst db.tokens req.token i t hget
      exact ⟨t', hget', htok, hu hused⟩

/-- Witness for `token_used_never_reverts`: the used token of the
concrete store stays used across a validation call. -/
theorem token_used_never_reverts_witness :
    ∃ t', (applyOps dbOneUsed [Op.validate "x"]).tokens.get? 0 = some t' ∧
      t'.token = tok1u.token ∧ t'.used = true :=
  token_used_never_reverts.1 dbOneUsed [Op.validate "x"] 0 tok1u
    (by decide) (by decide)

/-- Claim C5: every successful multi-file submission stores
`amountPaid = fileCount * 200` (the fixed unit price), where `fileCount`
equals the number of accepted files — both the number of file entries in
the stored record and the number of files of the request. -/
theorem amount_paid_formula
    (db : DB) (req : SubmitReq) (up : Nat → Option String) (k : Nat)
    (sc : Nat) (sub : SubmissionRec) (db' : DB)
    (h : submitMulti db req up k = (.success sc sub, db')) :
    sub.amountPaid = sub.fileCount * 200 ∧
    sub.fileCount = sub.files.length ∧
    sub.fileCount = req.files.length := by
  obtain ⟨-, t, ufs, -, -, hupl, hsub, -, -⟩ := submitMulti_success_inv h
  subst hsub
  exact ⟨rfl, rfl, uploadAll_length req.files 0 ufs hupl⟩

/-- Witness for `amount_paid_formula`: the concrete one-file submission
stores `amountPaid = 200 = 1 * 200`. -/
theorem amount_paid_formula_witness :
    subA.amountPaid = subA.fileCount * 200 ∧
    subA.fileCount = subA.files.length ∧
    subA.fileCount = reqOneFile.files.length :=
  amount_paid_formula dbOne reqOneFile upSome 0 13 subA dbOneDone (by decide)

/-- Claim C6: payment verification answers "Payment not successful" when
the gateway reports a non-success status and "Amount mismatch" when the
gateway's minor-unit amount differs from the expected major-unit amount
times 100 — both failures leave the transaction collection (and the whole
store) unchanged — and on success (with a reference not already recorded,
per the unique index) it appends exactly one Transaction record and
answers `verified: true`. -/
theorem payment_verify_spec (db : DB) (reference : String)
    (expectedAmount : Int) (name email : String) (data : GatewayData) :
    (data.status ≠ "success" →
      paymentVerify db reference expectedAmount name email (some data) =
        (.notSuccessful, db)) ∧
    (data.status = "success" → data.amount ≠ expectedAmount * 100 →
      paymentVerify db reference expectedAmount name email (some data) =
        (.amountMismatch, db)) ∧
    (data.status = "success" → data.amount = expectedAmount * 100 →
      (∀ t ∈ db.transactions, t.reference ≠ reference) →
      paymentVerify db reference expectedAmount name email (some data) =
        (.verified,
          { db with transactions := db.transactions ++
            [{ name := name, email := email, amount := expectedAmount,
               reference := reference, status := "success" }] })) := by
  refine ⟨?_, ?_, ?_⟩
  · intro hst
    unfold paymentVerify
    dsimp only
    rw [if_pos hst]
  · intro hst hamt
    unfold paymentVerify
    dsimp only
    rw [if_neg (not_not_intro hst), if_pos hamt]
  · intro hst hamt hfresh
    have hany : db.transactions.any (fun t => t.reference == reference) = false := by
      rw [List.any_eq_false]
      intro t ht
      simpa using hfresh t ht
    unfold paymentVerify
    dsimp only
    rw [if_neg (not_not_intro hst), if_neg (not_not_intro hamt)]
    simp [hany]

/-- Witness for `payment_verify_spec`: a successful gateway answer for
200 units (20000 minor units) is verified and recorded. -/
theorem payment_verify_spec_witness :
    paymentVerify dbEmpty "r1" 200 "N" "E" (some gwGood) =
      (.verified,
        { dbEmpty with transactions :=
          [{ name := "N", email := "E", amount := 200,
             reference := "r1", status := "success" }] }) :=
  (payment_verify_spec dbEmpty "r1" 200 "N" "E" gwGood).2.2 (by decide)
    (by decide) (by decide)

/-- Claim C7, counterexample: the legitimate `Math.random()` draw 1/2
(`k = 2^52 < 2^53`) renders in base 36 as `"0.i"`, so
`toString(36).substr(2, 8).toUpperCase()` yields `"I"` and the created,
returned identifier is `"ICT-I"` — 1 suffix character, not the claimed
exactly 8. -/
theorem generate_short_suffix_counterexample :
    generateTokens dbEmpty 1 (fun _ => 2 ^ 52) =
      (.ok [{ token := "ICT-I", used := false }],
       { dbEmpty with tokens := [{ token := "ICT-I", used := false }] }) ∧
    (2 : Nat) ^ 52 < two53 ∧
    "ICT-I".length ≠ "ICT-".length + 8 := by
  decide

/-- Claim C7 (amended): generation with `count ≤ 0` fails with
"Invalid amount"; for every `count > 0`, provided the drawn identifiers
are fresh and pairwise distinct (otherwise the unique index aborts the
batch) and each draw is a valid 53-bit `Math.random()` value, it creates
exactly `count` token records, each unused, each consisting of the fixed
prefix `"ICT-"` followed by AT MOST 8 uppercase base-36 characters
(fewer when the draw's base-36 expansion terminates early), appends them
to the store and returns them. -/
theorem generate_batch_spec :
    (∀ (db : DB) (rand : Nat → Nat) (amount : Int), amount ≤ 0 →
      generateTokens db amount rand = (.invalidAmount, db)) ∧
    (∀ (db : DB) (rand : Nat → Nat) (amount : Int), 0 < amount →
      (∀ j, j < amount.toNat → ∀ t ∈ db.tokens,
        t.token ≠ tokenString (rand j)) →
      (∀ j, j < amount.toNat → ∀ j', j' < amount.toNat → j ≠ j' →
        tokenString (rand j) ≠ tokenString (rand j')) →
      (∀ j, j < amount.toNat → rand j < two53) →
      generateTokens db amount rand =
        (.ok ((List.range amount.toNat).map (freshTok rand 0)),
         { db with tokens :=
            db.tokens ++ (List.range amount.toNat).map (freshTok rand 0) }) ∧
      ((List.range amount.toNat).map (freshTok rand 0)).length =
        amount.toNat ∧
      ∀ t ∈ (List.range amount.toNat).map (freshTok rand 0),
        t.used = false ∧
        ∃ suf, t.token = "ICT-" ++ suf ∧ suf.length ≤ 8 ∧
          ∀ c ∈ suf.toList, isDigit36Upper c) := by
  constructor
  · intro db rand amount ha
    unfold generateTokens
    rw [if_pos ha]
  · intro db rand amount ha hfresh hdist hrand
    have hfresh0 : ∀ j, j < amount.toNat → ∀ t ∈ db.tokens,
        t.token ≠ tokenString (rand (0 + j)) := by
      intro j hj t ht
      rw [Nat.zero_add]
      exact hfresh j hj t ht
    have hdist0 : ∀ j, j < amount.toNat → ∀ j', j' < amount.toNat → j ≠ j' →
        tokenString (rand (0 + j)) ≠ tokenString (rand (0 + j')) := by
      intro j hj j' hj' hne
      rw [Nat.zero_add, Nat.zero_add]
      exact hdist j hj j' hj' hne
    have hgen := genLoop_ok rand amount.toNat 0 db hfresh0 hdist0
    refine ⟨?_, by simp, ?_⟩
    · unfold generateTokens
      rw [if_neg (by omega), hgen]
      rfl
    · intro t ht
      obtain ⟨j, hj, rfl⟩ := List.mem_map.mp ht
      have hjn : j < amount.toNat := List.mem_range.mp hj
      refine ⟨rfl, randSuffix (rand (0 + j)), rfl, randSuffix_length _, ?_⟩
      have hr : rand (0 + j) < two53 := by
        rw [Nat.zero_add]
        exact hrand j hjn
      exact randSuffix_chars hr

/-- Witness for `generate_batch_spec`: a batch of one from the draw 1/2
is created and returned. -/
theorem generate_batch_spec_witness :
    generateTokens dbEmpty 1 (fun _ => 2 ^ 52) =
      (.ok ((List.range (1 : Int).toNat).map (freshTok (fun _ => 2 ^ 52) 0)),
       { dbEmpty with tokens := dbEmpty.tokens ++
          (List.range (1 : Int).toNat).map (freshTok (fun _ => 2 ^ 52) 0) }) :=
  ((generate_batch_spec.2 dbEmpty (fun _ => 2 ^ 52) 1 (by decide) (by decide)
    (by decide) (by decide)).1)

/-- Claim C8: a submission request carrying zero files is rejected
("No files uploaded" in the multi-file variant, "File is required" in
the single-file variant) with the store returned unchanged, for every
store, storage oracle and random draw — so no token lookup result,
upload outcome, or record creation is involved. -/
theorem no_files_rejected :
    (∀ (db : DB) (req : SubmitReq) (up : Nat → Option String) (k : Nat),
      req.files = [] → submitMulti db req up k = (.noFiles, db)) ∧
    (∀ (db : DBS) (req : SingleReq) (up : Option String),
      req.file = none → submitSingle db req up = (.fileRequired, db)) := by
  constructor
  · intro db req up k hf
    unfold submitMulti
    rw [if_pos (by simp [hf])]
  · intro db req up hf
    unfold submitSingle
    rw [hf]

/-- Witness for `no_files_rejected`: the concrete zero-file request is
answered with "No files uploaded" and an unchanged store. -/
theorem no_files_rejected_witness :
    submitMulti dbOne reqNoFiles upNone 7 = (.noFiles, dbOne) :=
  no_files_rejected.1 dbOne reqNoFiles upNone 7 rfl

/-- Claim C9: a submission request presenting an unknown or already-used
token (with a nonempty file batch) is answered 400 "Invalid or used
token" with the store — tokens, submissions, transactions — unchanged,
and the answer holds for EVERY storage oracle, so no upload is consulted;
both variants behave this way. -/
theorem bad_token_no_upload :
    (∀ (db : DB) (req : SubmitReq), req.files ≠ [] →
      BadTok db.tokens req.token →
      ∀ (up : Nat → Option String) (k : Nat),
        submitMulti db req up k = (.badToken, db)) ∧
    (∀ (db : DBS) (req : SingleReq) (f : FileReq), req.file = some f →
      BadTok db.tokens req.token →
      ∀ up : Option String, submitSingle db req up = (.badToken, db)) := by
  constructor
  · intro db req hfiles hbad up k
    unfold submitMulti
    rw [if_neg (fun h => hfiles (List.length_eq_zero.mp h))]
    rcases hbad with hnone | ⟨t, hfind, hused⟩
    · rw [hnone]
    · rw [hfind]
      simp [hused]
  · intro db req f hfile hbad up
    unfold submitSingle
    rw [hfile]
    rcases hbad with hnone | ⟨t, hfind, hused⟩
    · rw [hnone]
    · rw [hfind]
      simp [hused]

/-- Witness for `bad_token_no_upload`: a one-file request with a token
unknown to the empty store is rejected with the store unchanged. -/
theorem bad_token_no_upload_witness :
    submitMulti dbEmpty reqOneFile upNone 0 = (.badToken, dbEmpty) :=
  bad_token_no_upload.1 dbEmpty reqOneFile (by decide)
    (Or.inl (by decide)) upNone 0

/-- Claim C10: every successful submission of the scoring variant is
assigned `Math.floor(Math.random() * 7) + 13`, an integer between 13 and
19 inclusive, and the score stored in the Submission record equals the
score returned in the response. -/
theorem score_range
    (db : DB) (req : SubmitReq) (up : Nat → Option String) (k : Nat)
    (sc : Nat) (sub : SubmissionRec) (db' : DB) (hk : k < two53)
    (h : submitMulti db req up k = (.success sc sub, db')) :
    13 ≤ sc ∧ sc ≤ 19 ∧ sub.score = sc := by
  obtain ⟨-, t, ufs, -, -, -, hsub, hsc, -⟩ := submitMulti_success_inv h
  subst hsc
  subst hsub
  refine ⟨?_, ?_, rfl⟩
  · exact Nat.le_add_left 13 _
  · have hdiv : k * 7 / two53 < 7 := by
      refine (Nat.div_lt_iff_lt_mul two53_pos).mpr ?_
      have h7 : k * 7 < two53 * 7 :=
        Nat.mul_lt_mul_of_lt_of_le hk (le_refl 7) (by norm_num)
      calc k * 7 < two53 * 7 := h7
      _ = 7 * two53 := by ring
    exact Nat.add_le_add_right (Nat.lt_succ_iff.mp hdiv) 13

/-- Witness for `score_range`: the concrete submission from draw 0 is
scored 13, which lies in the range and is stored verbatim. -/
theorem score_range_witness :
    13 ≤ 13 ∧ (13 : Nat) ≤ 19 ∧ subA.score = 13 :=
  score_range dbOne reqOneFile upSome 0 13 subA dbOneDone (by decide)
    (by decide)
